import Mathlib

/-!
Verification development for the story-publishing front-end code:
the useStories hook (src/hooks/useStories.ts), the ManageStories view
(src/components/writer/manage-stories.tsx) and the LibraryPage view.

Remote calls are modelled by passing in the outcome of each call as an
Except value; the backend tables are modelled as lists and the query
builder combinators (filter by status, order by creation time, key by
identifier set) as list functions.
-/

namespace VineApp

/-- Lifecycle status of a story: the literal union type of Story.status
in useStories.ts. -/
inductive Status where
  | draft
  | published
  | archived
deriving DecidableEq, Repr

/-- Rendering of a Status value as the string the TypeScript code stores. -/
def statusStr : Status → String
  | Status.draft => "draft"
  | Status.published => "published"
  | Status.archived => "archived"

/-- A row of the stories table, after the Story interface of useStories.ts
(timestamps modelled as naturals). -/
structure Story where
  id : String
  title : String
  description : Option String
  genre : Option String
  cover_image_url : Option String
  author_id : String
  status : Status
  view_count : Nat
  like_count : Nat
  comment_count : Nat
  created_at : Nat
  updated_at : Nat
deriving DecidableEq, Repr

/-- A row of the profiles table as selected by fetchStories:
user_id, display_name, username. -/
structure Profile where
  user_id : String
  display_name : Option String
  username : Option String
deriving DecidableEq, Repr

/-- A story merged with its author profile, as built by fetchStories
(story spread plus a profiles field that may be null). -/
structure MergedStory where
  story : Story
  profiles : Option Profile
deriving DecidableEq, Repr

/-- The state owned by the useStories hook: stories, loading, error. -/
structure HookState where
  stories : List MergedStory
  loading : Bool
  error : Option String
deriving DecidableEq, Repr

/-- Initial hook state from the useState calls: empty list, loading true,
error null. -/
def initialHookState : HookState :=
  { stories := [], loading := true, error := none }

/-- The backend store: the stories and profiles tables. -/
structure Backend where
  stories : List Story
  profiles : List Profile
deriving DecidableEq, Repr

/-- Insertion of a story into a list kept in descending created_at order. -/
def insertByCreatedDesc (s : Story) : List Story → List Story
  | [] => [s]
  | t :: ts =>
    if t.created_at ≤ s.created_at then s :: t :: ts
    else t :: insertByCreatedDesc s ts

/-- Insertion sort of stories by descending created_at. -/
def sortByCreatedDesc : List Story → List Story
  | [] => []
  | s :: rest => insertByCreatedDesc s (sortByCreatedDesc rest)

/-- The stories select of fetchStories: select all rows with
status equal to published, ordered by created_at descending. -/
def selectPublished (db : Backend) : List Story :=
  sortByCreatedDesc (db.stories.filter (fun s => s.status == Status.published))

/-- The author identifier list built by fetchStories from the fetched
stories (storiesData.map of author_id, duplicates kept). -/
def authorIdsOf (data : List Story) : List String :=
  data.map (fun story => story.author_id)

/-- The profiles select of fetchStories: rows whose user_id is in the
given identifier list. -/
def profilesFor (db : Backend) (ids : List String) : List Profile :=
  db.profiles.filter (fun p => ids.contains p.user_id)

/-- The in-memory merge of fetchStories: each story is paired with the
first profile whose user_id equals its author_id; when the profiles
call failed (profilesData null) every merged profile is null. -/
def mergeStories (data : List Story) (profilesData : Option (List Profile)) :
    List MergedStory :=
  data.map (fun story =>
    { story := story
      profiles := (profilesData.getD []).find? (fun p => p.user_id == story.author_id) })

/-- One remote operation awaited by the hook; mutations report the list of
operations they performed. -/
inductive RemoteOp where
  | selectStories
  | selectProfiles
  | insertStory
  | insertTags
  | updateStoryOp (id : String)
  | deleteStoryOp (id : String)
deriving DecidableEq, Repr

/-- The setLoading true at the top of fetchStories. -/
def fetchStoriesStart (st : HookState) : HookState :=
  { st with loading := true }

/-- The body of fetchStories after setLoading true, driven by the outcomes
of the two remote selects. A stories error is thrown to the catch, which
records the message; the finally clears loading. A profiles error is only
warned about: the merge runs with a null profile list. On success the
collection is replaced and the error field is not touched. -/
def fetchStoriesFinish (st : HookState) (storiesRes : Except String (List Story))
    (profilesRes : Except String (List Profile)) : HookState × List RemoteOp :=
  match storiesRes with
  | Except.error e =>
    ({ st with error := some e, loading := false }, [RemoteOp.selectStories])
  | Except.ok storiesData =>
    let profilesData : Option (List Profile) :=
      match profilesRes with
      | Except.ok ps => some ps
      | Except.error _ => none
    ({ st with stories := mergeStories storiesData profilesData, loading := false },
     [RemoteOp.selectStories, RemoteOp.selectProfiles])

/-- The whole fetchStories run: set loading, perform the two selects,
finish. -/
def fetchStories (st : HookState) (storiesRes : Except String (List Story))
    (profilesRes : Except String (List Profile)) : HookState × List RemoteOp :=
  fetchStoriesFinish (fetchStoriesStart st) storiesRes profilesRes

/-- The input object of createStory. -/
structure CreateInput where
  title : String
  description : String
  genre : String
  author_id : String
  tags : Option (List String)
  cover_image_url : Option String
deriving DecidableEq, Repr

/-- The row createStory asks the backend to insert: the input fields plus
status draft; id and timestamps are assigned by the backend, counters
default to zero. -/
def storyInsertRow (newId : String) (now : Nat) (d : CreateInput) : Story :=
  { id := newId
    title := d.title
    description := some d.description
    genre := some d.genre
    cover_image_url := d.cover_image_url
    author_id := d.author_id
    status := Status.draft
    view_count := 0
    like_count := 0
    comment_count := 0
    created_at := now
    updated_at := now }

/-- Outcome of a mutation call of the hook: the hook state afterwards, the
value returned or error re-thrown, and the remote operations awaited. -/
structure MutResult (α : Type) where
  state : HookState
  result : Except String α
  ops : List RemoteOp
deriving Repr

/-- createStory: insert the story row (selecting the created row back); on
error record the message and re-throw. On success insert the tags when a
non-empty tag list was given — the outcome of that call is not checked —
then await fetchStories and return the created row. -/
def createStory (st : HookState) (d : CreateInput)
    (insertRes : Except String Story) (tagRes : Except String Unit)
    (storiesRes : Except String (List Story))
    (profilesRes : Except String (List Profile)) : MutResult Story :=
  match insertRes with
  | Except.error e =>
    { state := { st with error := some e }
      result := Except.error e
      ops := [RemoteOp.insertStory] }
  | Except.ok story =>
    let tagOps : List RemoteOp :=
      match d.tags with
      | some ts => if ts.length > 0 then [RemoteOp.insertTags] else []
      | none => []
    let f := fetchStories st storiesRes profilesRes
    { state := f.1
      result := Except.ok story
      ops := RemoteOp.insertStory :: (tagOps ++ f.2) }

/-- A partial story: the Partial Story update payload of updateStory
(only the fields the reviewed views send). -/
structure StoryUpdate where
  status : Option Status := none
  title : Option String := none
deriving DecidableEq, Repr

/-- updateStory: update the row by id; on error record the message and
re-throw, on success await fetchStories. -/
def updateStory (st : HookState) (id : String) (updates : StoryUpdate)
    (updateRes : Except String Unit)
    (storiesRes : Except String (List Story))
    (profilesRes : Except String (List Profile)) : MutResult Unit :=
  match updateRes with
  | Except.error e =>
    { state := { st with error := some e }
      result := Except.error e
      ops := [RemoteOp.updateStoryOp id] }
  | Except.ok _ =>
    let f := fetchStories st storiesRes profilesRes
    { state := f.1
      result := Except.ok ()
      ops := RemoteOp.updateStoryOp id :: f.2 }

/-- deleteStory: delete the row by id; on error record the message and
re-throw, on success await fetchStories. -/
def deleteStory (st : HookState) (id : String)
    (deleteRes : Except String Unit)
    (storiesRes : Except String (List Story))
    (profilesRes : Except String (List Profile)) : MutResult Unit :=
  match deleteRes with
  | Except.error e =>
    { state := { st with error := some e }
      result := Except.error e
      ops := [RemoteOp.deleteStoryOp id] }
  | Except.ok _ =>
    let f := fetchStories st storiesRes profilesRes
    { state := f.1
      result := Except.ok ()
      ops := RemoteOp.deleteStoryOp id :: f.2 }

/-- The member names of the object returned by useStories
(useStories.ts lines 151-159). -/
def useStoriesReturnKeys : List String :=
  ["stories", "loading", "error", "fetchStories", "createStory",
   "updateStory", "deleteStory"]

/-- The member name the ManageStories mount effect invokes on the hook
(manage-stories.tsx line 54). -/
def manageStoriesMountCall : String := "fetchUserStories"

/-! ManageStories view logic. -/

/-- Strict equality of a string with a possibly absent user id: comparing
a string with undefined is false. -/
def optIdEq (authorId : String) (userId : Option String) : Bool :=
  match userId with
  | some uid => authorId == uid
  | none => false

/-- The userStories list of ManageStories: stories whose author_id equals
the current user id (empty when no user is signed in). -/
def userStories (user : Option String) (stories : List MergedStory) :
    List MergedStory :=
  stories.filter (fun story => optIdEq story.story.author_id user)

/-- Lowercased character list of a string, modelling toLowerCase. -/
def lowerChars (s : String) : List Char :=
  s.data.map Char.toLower

/-- Whether the first list is an initial segment of the second. -/
def leadsWith : List Char → List Char → Bool
  | [], _ => true
  | _ :: _, [] => false
  | c :: cs, d :: ds => c == d && leadsWith cs ds

/-- Substring containment as the includes method of JavaScript strings:
some suffix of the haystack starts with the needle. -/
def hasSub : List Char → List Char → Bool
  | [], needle => leadsWith needle []
  | hay@(_ :: t), needle => leadsWith needle hay || hasSub t needle

/-- The search predicate of filteredStories: the lowercased title contains
the lowercased query. -/
def matchesSearch (q : String) (story : MergedStory) : Bool :=
  hasSub (lowerChars story.story.title) (lowerChars q)

/-- The status predicate of filteredStories: the filter is the string all,
or the story status renders to the filter string. -/
def matchesFilter (filterStatus : String) (story : MergedStory) : Bool :=
  filterStatus == "all" || statusStr story.story.status == filterStatus

/-- The filteredStories list of ManageStories applied to a collection. -/
def filteredStories (q : String) (filterStatus : String)
    (l : List MergedStory) : List MergedStory :=
  l.filter (fun story => matchesSearch q story && matchesFilter filterStatus story)

/-- The update request issued by toggleStatus: the story id together with
a status-only partial update, draft when the current status is published
and published otherwise. -/
def toggleStatus (storyId : String) (currentStatus : Status) :
    String × StoryUpdate :=
  let newStatus :=
    if currentStatus == Status.published then Status.draft else Status.published
  (storyId, { status := some newStatus })

/-! Delete confirmation flow of ManageStories, as a state machine over the
two useState cells deleteDialogOpen and storyToDelete. -/

/-- The dialog state of ManageStories. -/
structure DelFlow where
  deleteDialogOpen : Bool
  storyToDelete : Option String
deriving DecidableEq, Repr

/-- Initial dialog state: closed, nothing selected. -/
def initFlow : DelFlow := { deleteDialogOpen := false, storyToDelete := none }

/-- User events of the delete flow: the Delete menu item (handleDeleteClick),
the Delete Story action of the dialog (confirmDelete), and closing the
dialog (onOpenChange false via Cancel). -/
inductive DelEv where
  | clickDelete (id : String)
  | confirmEv
  | cancelEv
deriving DecidableEq, Repr

/-- One step of the delete flow; the second component lists the story ids
on which the remote deleteStory call was invoked during the step.
clickDelete stores the id and opens the dialog; confirmDelete returns at
once when no story is stored, otherwise awaits deleteStory on the stored
id (whether it succeeds or throws) and then closes and clears; closing
the dialog only flips the open flag and keeps the stored id. -/
def delStep (s : DelFlow) : DelEv → DelFlow × List String
  | DelEv.clickDelete id =>
    ({ deleteDialogOpen := true, storyToDelete := some id }, [])
  | DelEv.confirmEv =>
    match s.storyToDelete with
    | none => (s, [])
    | some id =>
      ({ deleteDialogOpen := false, storyToDelete := none }, [id])
  | DelEv.cancelEv =>
    ({ s with deleteDialogOpen := false }, [])

/-- Run of the delete flow over an event list, accumulating the remote
delete invocations in order. -/
def delRun (s : DelFlow) : List DelEv → DelFlow × List String
  | [] => (s, [])
  | e :: rest =>
    let p := delStep s e
    let q := delRun p.1 rest
    (q.1, p.2 ++ q.2)

/-- The story id stored by the last clickDelete of an event list, if any. -/
def lastClick : List DelEv → Option String
  | [] => none
  | DelEv.clickDelete id :: rest => some ((lastClick rest).getD id)
  | _ :: rest => lastClick rest

/-! LibraryPage reading statistics (getReadingStats). -/

/-- A row of the library table as held by useLibrary: the saved reference
of a reader to a story. -/
structure LibraryEntry where
  id : String
  story_id : String
  created_at : Nat
deriving DecidableEq, Repr

/-- A row of the read-progress table as held by useReads. -/
structure ReadEntry where
  story_id : String
  chapter_id : Option String
  progress : Option Int
deriving DecidableEq, Repr

/-- The four aggregate statistics of LibraryPage. -/
structure ReadingStats where
  totalSaved : Nat
  currentlyReading : Nat
  completed : Nat
  totalSlides : Int
deriving DecidableEq, Repr

/-- getReadingStats of LibraryPage: a missing progress counts as zero. -/
def getReadingStats (library : List LibraryEntry) (reads : List ReadEntry) :
    ReadingStats :=
  { totalSaved := library.length
    currentlyReading :=
      (reads.filter (fun r => 0 < r.progress.getD 0 && r.progress.getD 0 < 100)).length
    completed := (reads.filter (fun r => 100 ≤ r.progress.getD 0)).length
    totalSlides := reads.foldl (fun sum r => sum + r.progress.getD 0) 0 }

/-! Concrete sample data used by witnesses and counterexamples. -/

/-- A published story by user u1. -/
def demoStory : Story :=
  { id := "s1", title := "Hello World", description := none, genre := none
    cover_image_url := none, author_id := "u1", status := Status.published
    view_count := 0, like_count := 0, comment_count := 0
    created_at := 3, updated_at := 3 }

/-- A draft story by the same user u1. -/
def demoDraft : Story :=
  { demoStory with id := "s2", title := "Draft Tale", status := Status.draft
                   created_at := 5, updated_at := 5 }

/-- The profile row of user u1. -/
def demoProfile : Profile :=
  { user_id := "u1", display_name := some "Alice", username := some "alice" }

/-- A backend holding a published story and a draft of user u1. -/
def demoBackend : Backend :=
  { stories := [demoStory, demoDraft], profiles := [demoProfile] }

/-- The published demo story merged with no profile. -/
def demoMerged : MergedStory := { story := demoStory, profiles := none }

/-- A create input carrying one tag. -/
def demoInput : CreateInput :=
  { title := "T", description := "D", genre := "G", author_id := "u1"
    tags := some ["adventure"], cover_image_url := none }

/-- The row the backend reports for the demo insert. -/
def demoCreatedRow : Story := storyInsertRow "s9" 7 demoInput

/-! Theorems for the claims. -/

/-- C5: for every search string and status filter, the visible list of
ManageStories holds exactly the stories of the underlying collection whose
lowercased title contains the lowercased search string and, when the filter
is not all, whose status equals the filter value; with filter all no status
restriction is applied. -/
theorem c5_filtered_stories_exact :
    ∀ (q f : String) (l : List MergedStory) (s : MergedStory),
      (s ∈ filteredStories q f l ↔
        s ∈ l ∧ matchesSearch q s = true ∧
          (f = "all" ∨ statusStr s.story.status = f)) ∧
      filteredStories q "all" l = l.filter (fun x => matchesSearch q x) := by
  intro q f l s
  constructor
  · simp [filteredStories, List.mem_filter, matchesFilter, Bool.and_eq_true,
      Bool.or_eq_true, beq_iff_eq, and_assoc]
  · simp [filteredStories, matchesFilter]

/-- Witness for C5 at a concrete collection, query and filter. -/
theorem c5_filtered_stories_witness :
    demoMerged ∈ filteredStories "world" "published" [demoMerged] :=
  ((c5_filtered_stories_exact "world" "published" [demoMerged] demoMerged).1).mpr
    ⟨by decide, by decide, Or.inr (by decide)⟩

/-- C6: toggleStatus requests status draft for a published story and status
published for any other current status, never a third value, always on the
given story id. -/
theorem c6_toggle_status :
    ∀ (id : String) (st : Status),
      (st = Status.published →
        (toggleStatus id st).2.status = some Status.draft) ∧
      (st ≠ Status.published →
        (toggleStatus id st).2.status = some Status.published) ∧
      ((toggleStatus id st).2.status = some Status.draft ∨
        (toggleStatus id st).2.status = some Status.published) ∧
      (toggleStatus id st).1 = id := by
  intro id st
  cases st <;> simp [toggleStatus]

/-- Witness for C6 at the three concrete status values. -/
theorem c6_toggle_status_witness :
    (toggleStatus "s1" Status.published).2.status = some Status.draft ∧
    (toggleStatus "s1" Status.archived).2.status = some Status.published ∧
    (toggleStatus "s1" Status.draft).2.status = some Status.published :=
  ⟨(c6_toggle_status "s1" Status.published).1 rfl,
   (c6_toggle_status "s1" Status.archived).2.1 (by decide),
   (c6_toggle_status "s1" Status.draft).2.1 (by decide)⟩

/-- Sum of progress values via the foldl of getReadingStats. -/
theorem foldl_progress_sum (reads : List ReadEntry) :
    ∀ a : Int,
      reads.foldl (fun sum r => sum + r.progress.getD 0) a =
        a + (reads.map (fun r => r.progress.getD 0)).sum := by
  induction reads with
  | nil => intro a; simp
  | cons r rest ih => intro a; simp [List.foldl_cons, ih, add_assoc]

/-- C8: the library statistics count saved items, reads strictly between
zero and one hundred percent, reads at or above one hundred percent, and
sum the progress values with a missing progress as zero, each computed from
the two collections alone; at the concrete one-item scenario the stats are
one saved, one currently reading, none completed, forty-five slides. -/
theorem c8_reading_stats :
    (∀ (lib : List LibraryEntry) (reads : List ReadEntry),
      (getReadingStats lib reads).totalSaved = lib.length ∧
      (getReadingStats lib reads).currentlyReading =
        reads.countP (fun r => 0 < r.progress.getD 0 && r.progress.getD 0 < 100) ∧
      (getReadingStats lib reads).completed =
        reads.countP (fun r => 100 ≤ r.progress.getD 0) ∧
      (getReadingStats lib reads).totalSlides =
        (reads.map (fun r => r.progress.getD 0)).sum) ∧
    getReadingStats [{ id := "L1", story_id := "A", created_at := 1 }]
        [{ story_id := "A", chapter_id := none, progress := some 45 }] =
      { totalSaved := 1, currentlyReading := 1, completed := 0, totalSlides := 45 } := by
  constructor
  · intro lib reads
    refine ⟨rfl, ?_, ?_, ?_⟩
    · simp [getReadingStats, List.countP_eq_length_filter]
    · simp [getReadingStats, List.countP_eq_length_filter]
    · simp [getReadingStats, foldl_progress_sum]
  · decide

/-- C10: every story visible in ManageStories has author_id equal to the
current user id, and with no signed-in user the visible list is empty. -/
theorem c10_author_ownership :
    ∀ (user : Option String) (l : List MergedStory) (q f : String)
      (s : MergedStory),
      (s ∈ filteredStories q f (userStories user l) →
        ∃ uid, user = some uid ∧ s.story.author_id = uid) ∧
      userStories none l = [] ∧
      filteredStories q f (userStories none l) = [] := by
  intro user l q f s
  have hnone : userStories none l = [] := by
    simp [userStories, optIdEq]
  refine ⟨?_, hnone, ?_⟩
  · intro hs
    have h1 : s ∈ userStories user l := (List.mem_filter.mp hs).1
    have h2 := (List.mem_filter.mp h1).2
    cases user with
    | none => simp [optIdEq] at h2
    | some uid =>
      exact ⟨uid, rfl, by simpa [optIdEq, beq_iff_eq] using h2⟩
  · rw [hnone]
    rfl

/-- Witness for C10: a concrete visible story is owned by the signed-in
user u1. -/
theorem c10_author_ownership_witness :
    demoMerged ∈ filteredStories "" "all" (userStories (some "u1") [demoMerged]) ∧
    ∃ uid, (some "u1" : Option String) = some uid ∧
      demoMerged.story.author_id = uid :=
  ⟨by decide,
   (c10_author_ownership (some "u1") [demoMerged] "" "all" demoMerged).1 (by decide)⟩

/-- Runs of the delete flow distribute over appended event lists. -/
theorem delRun_append (a b : List DelEv) :
    ∀ s : DelFlow,
      delRun s (a ++ b) =
        ((delRun (delRun s a).1 b).1, (delRun s a).2 ++ (delRun (delRun s a).1 b).2) := by
  induction a with
  | nil => intro s; simp [delRun]
  | cons e rest ih => intro s; simp [delRun, ih, List.append_assoc]

/-- A run without a confirm event invokes no remote delete. -/
theorem delRun_no_confirm_calls (evs : List DelEv) :
    ∀ s : DelFlow, (∀ e ∈ evs, e ≠ DelEv.confirmEv) → (delRun s evs).2 = [] := by
  induction evs with
  | nil => intro s _; rfl
  | cons e rest ih =>
    intro s h
    have he : e ≠ DelEv.confirmEv := h e (List.mem_cons_self e rest)
    have hr : ∀ e ∈ rest, e ≠ DelEv.confirmEv :=
      fun x hx => h x (List.mem_cons_of_mem e hx)
    cases e with
    | clickDelete id => simp [delRun, delStep, ih _ hr]
    | confirmEv => exact absurd rfl he
    | cancelEv => simp [delRun, delStep, ih _ hr]

/-- After a confirm-free run the stored story id is the last clicked one,
or the prior stored id when no click occurred. -/
theorem delRun_no_confirm_stored (evs : List DelEv) :
    ∀ s : DelFlow, (∀ e ∈ evs, e ≠ DelEv.confirmEv) →
      (delRun s evs).1.storyToDelete =
        (match lastClick evs with
         | some id => some id
         | none => s.storyToDelete) := by
  induction evs with
  | nil => intro s _; rfl
  | cons e rest ih =>
    intro s h
    have he : e ≠ DelEv.confirmEv := h e (List.mem_cons_self e rest)
    have hr : ∀ e ∈ rest, e ≠ DelEv.confirmEv :=
      fun x hx => h x (List.mem_cons_of_mem e hx)
    cases e with
    | clickDelete id =>
      have := ih { deleteDialogOpen := true, storyToDelete := some id } hr
      cases hlc : lastClick rest <;>
        simp_all [delRun, delStep, lastClick]
    | confirmEv => exact absurd rfl he
    | cancelEv =>
      have := ih { s with deleteDialogOpen := false } hr
      cases hlc : lastClick rest <;> simp_all [delRun, delStep, lastClick]

/-- C9: over the delete-flow state machine of ManageStories, delete clicks
and cancels without a confirm never invoke the remote delete; a confirm
after such a run invokes it exactly once, on the last clicked story, and a
second confirm adds nothing; a cancel step alone performs no remote
action. -/
theorem c9_delete_confirmation :
    ∀ (evs : List DelEv) (id : String),
      ((∀ e ∈ evs, e ≠ DelEv.confirmEv) → (delRun initFlow evs).2 = []) ∧
      ((∀ e ∈ evs, e ≠ DelEv.confirmEv) → lastClick evs = some id →
        (delRun initFlow (evs ++ [DelEv.confirmEv])).2 = [id] ∧
        (delRun initFlow (evs ++ [DelEv.confirmEv, DelEv.confirmEv])).2 = [id]) ∧
      (∀ s : DelFlow, (delStep s DelEv.cancelEv).2 = []) := by
  intro evs id
  refine ⟨fun h => delRun_no_confirm_calls evs initFlow h, ?_, fun s => rfl⟩
  intro h hlast
  have hcalls := delRun_no_confirm_calls evs initFlow h
  have hstored := delRun_no_confirm_stored evs initFlow h
  rw [hlast] at hstored
  constructor
  · rw [delRun_append, hcalls]
    simp [delRun, delStep, hstored]
  · rw [delRun_append, hcalls]
    simp [delRun, delStep, hstored]

/-- Witness for C9: two clicks alone invoke nothing; a confirm after them
deletes exactly the second story. -/
theorem c9_delete_confirmation_witness :
    (delRun initFlow [DelEv.clickDelete "a", DelEv.clickDelete "b"]).2 = [] ∧
    (delRun initFlow
        ([DelEv.clickDelete "a", DelEv.clickDelete "b"] ++ [DelEv.confirmEv])).2 =
      ["b"] :=
  ⟨(c9_delete_confirmation [DelEv.clickDelete "a", DelEv.clickDelete "b"] "b").1
      (by decide),
   ((c9_delete_confirmation [DelEv.clickDelete "a", DelEv.clickDelete "b"] "b").2.1
      (by decide) (by decide)).1⟩

/-- C2 (amended): every fetch run sets the loading flag true at the start
and false when it finishes on either branch; on failure the error message
is set to the thrown message and the collection is untouched; on success
the collection is replaced by the merged remote snapshot while the error
field keeps its previous value (it is not cleared). -/
theorem c2_fetch_flags :
    ∀ (st : HookState) (sr : Except String (List Story))
      (pr : Except String (List Profile)),
      (fetchStoriesStart st).loading = true ∧
      (fetchStories st sr pr).1.loading = false ∧
      (∀ e, sr = Except.error e →
        (fetchStories st sr pr).1.error = some e ∧
        (fetchStories st sr pr).1.stories = st.stories) ∧
      (∀ data, sr = Except.ok data →
        (fetchStories st sr pr).1.stories =
          mergeStories data
            (match pr with
             | Except.ok ps => some ps
             | Except.error _ => none) ∧
        (fetchStories st sr pr).1.error = st.error) := by
  intro st sr pr
  refine ⟨rfl, ?_, ?_, ?_⟩
  · cases sr <;> rfl
  · intro e he
    subst he
    exact ⟨rfl, rfl⟩
  · intro data hd
    subst hd
    exact ⟨rfl, rfl⟩

/-- Witness for C2 at a failing and at a succeeding fetch. -/
theorem c2_fetch_flags_witness :
    (fetchStories initialHookState (Except.error "boom") (Except.ok [])).1.error =
      some "boom" ∧
    (fetchStories initialHookState (Except.ok [demoStory]) (Except.ok [])).1.loading =
      false :=
  ⟨((c2_fetch_flags initialHookState (Except.error "boom") (Except.ok [])).2.2.1
      "boom" rfl).1,
   (c2_fetch_flags initialHookState (Except.ok [demoStory]) (Except.ok [])).2.1⟩

/-- A hook state carrying an error message from an earlier failure. -/
def staleErrState : HookState :=
  { stories := [], loading := false, error := some "old failure" }

/-- Counterexample to C2 as stated: after a fully successful fetch the
error field still holds the old message, so it is not cleared on
success. -/
theorem c2_error_not_cleared_counterexample :
    (fetchStories staleErrState (Except.ok [demoStory]) (Except.ok [demoProfile])).1.error ≠
      none := by
  decide

/-- C3 (amended): a failure of the primary remote write of create, update
or delete is caught, recorded in the error field as the thrown message and
re-thrown, with the in-memory collection untouched; the auxiliary tag
insert of create is ignored — its outcome changes neither the state nor
the returned value, so its failure is neither recorded nor re-thrown and
create still succeeds; a failure of the embedded refetch is recorded by
the fetch itself but create still returns the created row. -/
theorem c3_mutation_error_policy :
    ∀ (st : HookState) (d : CreateInput) (e : String) (id : String)
      (upd : StoryUpdate) (story : Story) (ir : Except String Story)
      (tagRes tagRes2 : Except String Unit)
      (sr : Except String (List Story)) (pr : Except String (List Profile))
      (data : List Story),
      ((createStory st d (Except.error e) tagRes sr pr).state.error = some e ∧
        (createStory st d (Except.error e) tagRes sr pr).state.stories = st.stories ∧
        (createStory st d (Except.error e) tagRes sr pr).result = Except.error e) ∧
      ((updateStory st id upd (Except.error e) sr pr).state.error = some e ∧
        (updateStory st id upd (Except.error e) sr pr).state.stories = st.stories ∧
        (updateStory st id upd (Except.error e) sr pr).result = Except.error e) ∧
      ((deleteStory st id (Except.error e) sr pr).state.error = some e ∧
        (deleteStory st id (Except.error e) sr pr).state.stories = st.stories ∧
        (deleteStory st id (Except.error e) sr pr).result = Except.error e) ∧
      createStory st d ir tagRes sr pr = createStory st d ir tagRes2 sr pr ∧
      ((createStory st d (Except.ok story) tagRes (Except.ok data) pr).result =
        Except.ok story ∧
        (createStory st d (Except.ok story) tagRes (Except.ok data) pr).state.error =
          st.error) ∧
      ((createStory st d (Except.ok story) tagRes (Except.error e) pr).result =
        Except.ok story ∧
        (createStory st d (Except.ok story) tagRes (Except.error e) pr).state.error =
          some e) := by
  intro st d e id upd story ir tagRes tagRes2 sr pr data
  refine ⟨⟨rfl, rfl, rfl⟩, ⟨rfl, rfl, rfl⟩, ⟨rfl, rfl, rfl⟩, ?_, ⟨rfl, rfl⟩, ⟨rfl, rfl⟩⟩
  cases ir <;> rfl

/-- Counterexample to C3 as stated: with the story insert succeeding and
the tag insert failing, create neither records the tag failure nor
re-throws it — it returns the created row and leaves the error field
empty. -/
theorem c3_tag_failure_ignored_counterexample :
    (createStory initialHookState demoInput (Except.ok demoCreatedRow)
        (Except.error "tag insert failed") (Except.ok []) (Except.ok [])).result =
      Except.ok demoCreatedRow ∧
    (createStory initialHookState demoInput (Except.ok demoCreatedRow)
        (Except.error "tag insert failed") (Except.ok []) (Except.ok [])).state.error =
      none :=
  ⟨rfl, rfl⟩

/-- C4: a create whose insert succeeds, an update whose write succeeds and
a delete whose write succeeds each run the fetch before returning, so the
collection equals the merged published backend snapshot; create returns
the created row, which carries status draft. -/
theorem c4_fetch_after_mutate :
    ∀ (st : HookState) (d : CreateInput) (id newId : String) (now : Nat)
      (db : Backend) (tagRes : Except String Unit) (upd : StoryUpdate),
      (let row := storyInsertRow newId now d
       let snap := selectPublished db
       let prof := profilesFor db (authorIdsOf snap)
       let rc := createStory st d (Except.ok row) tagRes (Except.ok snap)
         (Except.ok prof)
       RemoteOp.selectStories ∈ rc.ops ∧
       rc.result = Except.ok row ∧
       row.status = Status.draft ∧
       rc.state.stories = mergeStories snap (some prof)) ∧
      (let snap := selectPublished db
       let prof := profilesFor db (authorIdsOf snap)
       let ru := updateStory st id upd (Except.ok ()) (Except.ok snap)
         (Except.ok prof)
       RemoteOp.selectStories ∈ ru.ops ∧
       ru.state.stories = mergeStories snap (some prof)) ∧
      (let snap := selectPublished db
       let prof := profilesFor db (authorIdsOf snap)
       let rd := deleteStory st id (Except.ok ()) (Except.ok snap)
         (Except.ok prof)
       RemoteOp.selectStories ∈ rd.ops ∧
       rd.state.stories = mergeStories snap (some prof)) := by
  intro st d id newId now db tagRes upd
  refine ⟨⟨?_, rfl, rfl, rfl⟩, ⟨?_, rfl⟩, ⟨?_, rfl⟩⟩
  · simp [createStory, fetchStories, fetchStoriesFinish, fetchStoriesStart]
  · simp [updateStory, fetchStories, fetchStoriesFinish, fetchStoriesStart]
  · simp [deleteStory, fetchStories, fetchStoriesFinish, fetchStoriesStart]

/-- C7: after the stories select, profiles are loaded in a second
round-trip and merged by equality of profile user_id with story author_id:
every merged profile is the first matching one and any present profile
matches its story. When the profiles call fails the fetch still succeeds —
the collection is replaced with every merged profile absent, the error
field is untouched and loading ends false. -/
theorem c7_profile_join :
    ∀ (st : HookState) (data : List Story) (ps : List Profile) (e : String),
      (∀ s, s ∈ (fetchStories st (Except.ok data) (Except.ok ps)).1.stories →
        s.profiles = ps.find? (fun p => p.user_id == s.story.author_id) ∧
        ∀ p, s.profiles = some p → p.user_id = s.story.author_id) ∧
      (fetchStories st (Except.ok data) (Except.ok ps)).2 =
        [RemoteOp.selectStories, RemoteOp.selectProfiles] ∧
      (fetchStories st (Except.ok data) (Except.error e)).1.stories =
        mergeStories data none ∧
      (∀ s, s ∈ (fetchStories st (Except.ok data) (Except.error e)).1.stories →
        s.profiles = none) ∧
      (fetchStories st (Except.ok data) (Except.error e)).1.error = st.error ∧
      (fetchStories st (Except.ok data) (Except.error e)).1.loading = false := by
  intro st data ps e
  refine ⟨?_, rfl, rfl, ?_, rfl, rfl⟩
  · intro s hs
    have hs' : s ∈ mergeStories data (some ps) := hs
    simp only [mergeStories, List.mem_map] at hs'
    obtain ⟨x, hx, hseq⟩ := hs'
    subst hseq
    refine ⟨rfl, ?_⟩
    intro p hp
    have hfind : ps.find? (fun q => q.user_id == x.author_id) = some p := hp
    have := List.find?_some hfind
    simpa [beq_iff_eq] using this
  · intro s hs
    have hs' : s ∈ mergeStories data none := hs
    simp only [mergeStories, List.mem_map] at hs'
    obtain ⟨x, hx, hseq⟩ := hs'
    subst hseq
    rfl

/-- Witness for C7: in a concrete fetch the merged story carries the
matching profile and that profile belongs to the story author. -/
theorem c7_profile_join_witness :
    ({ story := demoStory, profiles := some demoProfile } : MergedStory) ∈
      (fetchStories initialHookState (Except.ok [demoStory])
        (Except.ok [demoProfile])).1.stories ∧
    demoProfile.user_id = demoStory.author_id :=
  ⟨by decide,
   ((c7_profile_join initialHookState [demoStory] [demoProfile] "x").1
      { story := demoStory, profiles := some demoProfile } (by decide)).2
     demoProfile rfl⟩

/-- C1: the object returned by useStories has no fetchUserStories member,
although that is what the ManageStories mount effect invokes; the only
fetch the hook itself runs keeps published rows only, so after the
mount-time fetch against a backend holding a draft of user u1 every story
in the collection is published and the draft is absent. -/
theorem c1_mount_fetch_draft_gap :
    useStoriesReturnKeys.contains manageStoriesMountCall = false ∧
    demoDraft.status = Status.draft ∧
    demoDraft ∈ demoBackend.stories ∧
    (∀ s, s ∈ (fetchStories initialHookState
        (Except.ok (selectPublished demoBackend))
        (Except.ok (profilesFor demoBackend
          (authorIdsOf (selectPublished demoBackend))))).1.stories →
      s.story.status = Status.published) ∧
    ¬ ∃ s ∈ (fetchStories initialHookState
        (Except.ok (selectPublished demoBackend))
        (Except.ok (profilesFor demoBackend
          (authorIdsOf (selectPublished demoBackend))))).1.stories,
      s.story.id = demoDraft.id := by
  decide

end VineApp
